import Mathlib

/-!
Verification of the `smithay/wayland/shell/xdg` documentation-index artifact.

The source tree contains a single file, `sidebar-items.js`, whose whole content
is one call `initSidebarItems({...})` with a static object literal mapping
symbol names to one-line descriptions, grouped in four categories
(constant, enum, fn, struct).  We embed that literal faithfully and prove the
claims about it.  Behavioral components (the configure/acknowledge state
machine, the outbound event enum) are not part of the source tree; where a
claim depends on them they are modelled from the specification, and each such
definition is marked `Modelled from the spec:` in its doc comment.
-/

/-- One sidebar entry: a symbol name and its one-line description. -/
structure SidebarEntry where
  name : String
  descr : String
deriving DecidableEq, Repr

/-- The four categories of the sidebar mapping, in the order they appear in
the source object literal. -/
structure SidebarItems where
  constant : List SidebarEntry
  enum : List SidebarEntry
  fn : List SidebarEntry
  struct : List SidebarEntry
deriving DecidableEq, Repr

/-- The static mapping passed to `initSidebarItems` in
`src/smithay/wayland/shell/xdg/sidebar-items.js`, transcribed entry by entry
in source order. -/
def xdgSidebar : SidebarItems where
  constant := [
    ⟨"XDG_POPUP_ROLE", "The role of an XDG popup surface."⟩,
    ⟨"XDG_TOPLEVEL_ROLE", "The role of an XDG toplevel surface."⟩,
    ⟨"ZXDG_POPUP_ROLE", "The role of an ZXDG popup surface."⟩,
    ⟨"ZXDG_TOPLEVEL_ROLE", "The role of an ZXDG toplevel surface."⟩]
  enum := [
    ⟨"Configure", "Defines the possible configure variants for a XdgSurface that will be issued in the user_impl for notifying about a ack_configure"⟩,
    ⟨"PopupConfigureError", "Represents the possible errors that can be returned from [`PopupSurface::send_configure`]"⟩,
    ⟨"XdgRequest", "Events generated by xdg shell surfaces"⟩]
  fn := [
    ⟨"xdg_shell_init", "Create a new `xdg_shell` global"⟩]
  struct := [
    ⟨"PopupConfigure", "A configure message for popup surface"⟩,
    ⟨"PopupState", "Represents the state of the popup"⟩,
    ⟨"PopupSurface", "A handle to a popup surface"⟩,
    ⟨"PositionerState", "The state of a positioner, as set by the client"⟩,
    ⟨"ShellClient", "A shell client"⟩,
    ⟨"ShellState", "Shell global state"⟩,
    ⟨"SurfaceCachedState", "Represents the client pending state"⟩,
    ⟨"ToplevelConfigure", "A configure message for toplevel surfaces"⟩,
    ⟨"ToplevelState", "State of a regular toplevel surface"⟩,
    ⟨"ToplevelStateSet", "Container holding the states for a `XdgToplevel`"⟩,
    ⟨"ToplevelSurface", "A handle to a toplevel surface"⟩,
    ⟨"XdgPopupSurfaceRoleAttributes", "Role specific attributes for xdg_popup"⟩,
    ⟨"XdgToplevelSurfaceRoleAttributes", "Role specific attributes for xdg_toplevel"⟩]

/-- All entries of the mapping, categories concatenated in source order. -/
def sidebarEntries (s : SidebarItems) : List SidebarEntry :=
  s.constant ++ s.enum ++ s.fn ++ s.struct

/-- All symbol names of the mapping. -/
def sidebarNames (s : SidebarItems) : List String :=
  (sidebarEntries s).map SidebarEntry.name

/-- Description of a named entry within one category, if present. -/
def lookupDescr (es : List SidebarEntry) (n : String) : Option String :=
  (es.find? (fun e => e.name == n)).map SidebarEntry.descr

/-- The four role identifier constants named by the claim, in the claim's
order. -/
def roleConstants : List String :=
  ["XDG_TOPLEVEL_ROLE", "ZXDG_TOPLEVEL_ROLE", "XDG_POPUP_ROLE", "ZXDG_POPUP_ROLE"]

/-- The thirteen data-model type names the spec enumerates. -/
def specDataModelNames : List String :=
  ["ShellClient", "ToplevelSurface", "PopupSurface", "ToplevelState",
   "ToplevelStateSet", "PopupState", "PositionerState", "SurfaceCachedState",
   "Configure", "ToplevelConfigure", "PopupConfigure",
   "XdgToplevelSurfaceRoleAttributes", "XdgPopupSurfaceRoleAttributes"]

/-- Claim C1: the mapping's constant category consists of exactly the four
protocol role identifiers XDG_TOPLEVEL_ROLE, ZXDG_TOPLEVEL_ROLE,
XDG_POPUP_ROLE, ZXDG_POPUP_ROLE: every constant entry is one of the four and
all four are present. -/
theorem C1_role_constants :
    xdgSidebar.constant.map SidebarEntry.name =
      ["XDG_POPUP_ROLE", "XDG_TOPLEVEL_ROLE", "ZXDG_POPUP_ROLE", "ZXDG_TOPLEVEL_ROLE"]
    ∧ (xdgSidebar.constant.map SidebarEntry.name).all
        (fun n => roleConstants.contains n) = true
    ∧ roleConstants.all
        (fun n => (xdgSidebar.constant.map SidebarEntry.name).contains n) = true := by
  decide

/-- Claim C4: every type name of the spec's data model appears as a symbol
name somewhere in the sidebar mapping. -/
theorem C4_data_model_names_present :
    specDataModelNames.all (fun n => (sidebarNames xdgSidebar).contains n) = true := by
  decide

/-- If mapping a key function over a list yields no duplicates, then filtering
the list for any single key value keeps at most one element. -/
theorem filter_key_length_le_one {α β : Type} [DecidableEq β] (f : α → β) (b : β) :
    ∀ l : List α, (l.map f).Nodup → (l.filter (fun x => f x == b)).length ≤ 1 := by
  intro l
  induction l with
  | nil => intro _; simp
  | cons a t ih =>
    intro h
    rw [List.map_cons, List.nodup_cons] at h
    by_cases hab : f a = b
    · have hnil : t.filter (fun x => f x == b) = [] := by
        rw [List.filter_eq_nil_iff]
        intro x hx hxb
        have hfx : f x = f a := by
          have hxb2 : f x = b := by simpa using hxb
          rw [hxb2, hab]
        exact h.1 (hfx ▸ List.mem_map_of_mem f hx)
      simp [List.filter_cons, hab, hnil]
    · have hle := ih h.2
      simpa [List.filter_cons, hab] using hle

/-- Claim C9: the symbol names of the mapping are unique across all four
categories, so each name maps to exactly one description string. -/
theorem C9_names_unique :
    (sidebarNames xdgSidebar).Nodup
    ∧ ∀ n : String,
        ((sidebarEntries xdgSidebar).filter (fun e => e.name == n)).length ≤ 1 := by
  constructor
  · decide
  · intro n
    exact filter_key_length_le_one SidebarEntry.name n (sidebarEntries xdgSidebar)
      (by decide)

/-- Claim C10: the fn category has exactly one entry, xdg_shell_init,
described as creating a new xdg_shell global. -/
theorem C10_single_fn :
    xdgSidebar.fn = [⟨"xdg_shell_init", "Create a new `xdg_shell` global"⟩]
    ∧ xdgSidebar.fn.length = 1 := by
  exact ⟨rfl, rfl⟩

/-- A JSON-like JavaScript value literal, as they occur in the artifact. -/
inductive JsVal where
  | str (s : String)
  | arr (vs : List JsVal)
  | obj (fields : List (String × JsVal))

/-- A JavaScript expression, restricted to the forms relevant to the
artifact: literals, identifiers, and calls. -/
inductive JsExpr where
  | val (v : JsVal)
  | ident (n : String)
  | call (callee : String) (args : List JsExpr)

/-- A JavaScript statement, with control-flow forms present so that their
absence in the artifact is a meaningful fact. -/
inductive JsStmt where
  | expr (e : JsExpr)
  | ifElse (cond : JsExpr) (thenBranch elseBranch : List JsStmt)
  | whileLoop (cond : JsExpr) (body : List JsStmt)
  | ret (e : JsExpr)

/-- One sidebar entry as the two-element array literal of the source. -/
def encodeEntry (e : SidebarEntry) : JsVal :=
  JsVal.arr [JsVal.str e.name, JsVal.str e.descr]

/-- The object literal argument of the initSidebarItems call, with its four
keys in source order. -/
def sidebarLiteral : JsVal :=
  JsVal.obj [
    ("constant", JsVal.arr (xdgSidebar.constant.map encodeEntry)),
    ("enum", JsVal.arr (xdgSidebar.enum.map encodeEntry)),
    ("fn", JsVal.arr (xdgSidebar.fn.map encodeEntry)),
    ("struct", JsVal.arr (xdgSidebar.struct.map encodeEntry))]

/-- The whole program of sidebar-items.js: a single statement calling
initSidebarItems on the static literal. -/
def sidebarItemsJs : List JsStmt :=
  [JsStmt.expr (JsExpr.call ("initSidebarItems") [JsExpr.val sidebarLiteral])]

/-- Whether a statement is a control-flow construct. -/
def JsStmt.isControlFlow : JsStmt → Bool
  | .ifElse _ _ _ => true
  | .whileLoop _ _ => true
  | _ => false

/-- Whether an expression is a static literal value. -/
def JsExpr.isStaticLiteral : JsExpr → Bool
  | .val _ => true
  | _ => false

/-- Whether a program consists of exactly one statement, a call to
initSidebarItems whose single argument is a static literal. -/
def isSingleStaticInitCall (p : List JsStmt) : Bool :=
  match p with
  | [JsStmt.expr (JsExpr.call f args)] =>
      f == "initSidebarItems" && args.length == 1 && args.all JsExpr.isStaticLiteral
  | _ => false

/-- Claim C5: the artifact is a single call to initSidebarItems whose
argument is one static literal mapping; it contains no control flow and
nothing else. -/
theorem C5_single_static_call :
    isSingleStaticInitCall sidebarItemsJs = true
    ∧ sidebarItemsJs.all (fun s => ! s.isControlFlow) = true
    ∧ sidebarItemsJs.length = 1 := by
  exact ⟨rfl, rfl, rfl⟩

/-- Whether the first list is a leading segment of the second. -/
def leadingMatch : List Char → List Char → Bool
  | [], _ => true
  | _ :: _, [] => false
  | a :: as, b :: bs => a == b && leadingMatch as bs

/-- Whether the first list occurs contiguously anywhere in the second. -/
def occursIn (phrase : List Char) : List Char → Bool
  | [] => leadingMatch phrase []
  | c :: rest => leadingMatch phrase (c :: rest) || occursIn phrase rest

/-- Whether phrase occurs as a contiguous substring of d. -/
def mentions (phrase d : String) : Bool :=
  occursIn phrase.toList d.toList

/-- The phrase of the Configure description stating what the enum is issued
for. -/
def ackNotifPhrase : String :=
  "notifying about a ack_configure"

/-- The function the PopupConfigureError description names as the origin of
the errors. -/
def sendConfigurePhrase : String :=
  "send_configure"

/-- The acknowledgement word, for checking whether a description speaks of
acknowledgement at all. -/
def ackWord : String :=
  "ack"

/-- The description of the Configure enum in the sidebar mapping. -/
def configureDescr : String :=
  (lookupDescr xdgSidebar.enum ("Configure")).getD ("")

/-- The description of the PopupConfigureError enum in the sidebar mapping. -/
def popupConfigureErrorDescr : String :=
  (lookupDescr xdgSidebar.enum ("PopupConfigureError")).getD ("")

/-- Claim C3, counterexample: the claim says Configure is sent from the shell
to the client and is not a notification about a client acknowledgement, yet
the source describes Configure as issued in the user_impl for notifying about
an ack_configure; so the description does mention ack notification. -/
theorem C3_counterexample :
    ¬ (mentions ackNotifPhrase configureDescr = false) := by
  decide

/-- Claim C3 (amended): the Configure enum defines the configure variants for
an XdgSurface that are issued in the user_impl for notifying about an
ack_configure, i.e. it is delivered compositor-side as a notification about a
client acknowledgement. -/
theorem C3_configure_is_ack_notification :
    configureDescr =
      "Defines the possible configure variants for a XdgSurface that will be issued in the user_impl for notifying about a ack_configure"
    ∧ mentions ackNotifPhrase configureDescr = true := by
  exact ⟨rfl, by decide⟩

/-- Claim C2, counterexample: the claim makes PopupConfigureError the error
type of popup acknowledgement, yet the source attributes it to
PopupSurface::send_configure and its description never mentions
acknowledgement at all. -/
theorem C2_counterexample :
    ¬ (mentions ackWord popupConfigureErrorDescr = true) := by
  decide

/-- Claim C2 (amended): PopupConfigureError represents the possible errors
that can be returned from PopupSurface::send_configure, the popup
configure-sending path, not from acknowledgement. -/
theorem C2_popup_error_from_send_configure :
    popupConfigureErrorDescr =
      "Represents the possible errors that can be returned from [`PopupSurface::send_configure`]"
    ∧ mentions sendConfigurePhrase popupConfigureErrorDescr = true
    ∧ mentions ackWord popupConfigureErrorDescr = false := by
  exact ⟨rfl, by decide, by decide⟩

/-- Modelled from the spec: the per-surface configure/acknowledge engine of
SurfaceStateMachine (spec section 4.3), whose implementation is not part of
the source tree (only the documentation index is). lastSerial is the latest
issued serial, 0 while none was issued; outstanding holds the
issued-but-unacknowledged serials in issue order. -/
structure SurfaceSM where
  lastSerial : Nat
  outstanding : List Nat
deriving DecidableEq, Repr

/-- Modelled from the spec: a fresh, unconfigured surface. -/
def SurfaceSM.fresh : SurfaceSM :=
  ⟨0, []⟩

/-- Modelled from the spec: AckError, the error for an acknowledgement whose
serial matches no issued-but-unacknowledged configure. -/
inductive AckError where
  | UnknownSerial
deriving DecidableEq, Repr

/-- Modelled from the spec: request_configure allocates the next serial
(monotonic per surface, starting at 1), records it as latest issued and as
outstanding, and returns the updated machine with the serial. -/
def request_configure (sm : SurfaceSM) : SurfaceSM × Nat :=
  let s := sm.lastSerial + 1
  ({ lastSerial := s, outstanding := sm.outstanding ++ [s] }, s)

/-- Modelled from the spec: ack_configure. A serial below the lowest
outstanding one is a stale acknowledgement, ignored without error; a serial
matching an outstanding configure acknowledges it together with every earlier
outstanding configure (cumulative ack); any other serial fails with
AckError.UnknownSerial. -/
def ack_configure (sm : SurfaceSM) (serial : Nat) : Except AckError SurfaceSM :=
  match sm.outstanding.head? with
  | none =>
      if serial ≤ sm.lastSerial then Except.ok sm
      else Except.error AckError.UnknownSerial
  | some low =>
      if serial < low then Except.ok sm
      else if sm.outstanding.contains serial then
        Except.ok { sm with outstanding := sm.outstanding.filter (fun t => serial < t) }
      else Except.error AckError.UnknownSerial

/-- Iterate request_configure n times, collecting the issued serials in
order. -/
def issueN : Nat → SurfaceSM → SurfaceSM × List Nat
  | 0, sm => (sm, [])
  | n + 1, sm =>
      let r := request_configure sm
      let rest := issueN n r.1
      (rest.1, r.2 :: rest.2)

/-- The serials issued by n consecutive configure requests are the n
successors of the latest issued serial, in order. -/
theorem issueN_serials (n : Nat) :
    ∀ sm : SurfaceSM, (issueN n sm).2 = List.range' (sm.lastSerial + 1) n := by
  induction n with
  | zero => intro sm; rfl
  | succ n ih =>
      intro sm
      simp [issueN, request_configure, ih, List.range'_succ]

/-- Claim C7: from a fresh surface, a sequence of n request_configure calls
issues exactly the serials 1..n: strictly increasing, pairwise distinct, and
the first issued serial equals 1. -/
theorem C7_serials_strictly_increasing (n : Nat) :
    (issueN n SurfaceSM.fresh).2 = List.range' 1 n
    ∧ List.Pairwise (· < ·) (issueN n SurfaceSM.fresh).2
    ∧ (issueN n SurfaceSM.fresh).2.Nodup
    ∧ (issueN (n + 1) SurfaceSM.fresh).2.head? = some 1 := by
  have h0 : (issueN n SurfaceSM.fresh).2 = List.range' 1 n :=
    issueN_serials n SurfaceSM.fresh
  have h1 : (issueN (n + 1) SurfaceSM.fresh).2 = List.range' 1 (n + 1) :=
    issueN_serials (n + 1) SurfaceSM.fresh
  refine ⟨h0, ?_, ?_, ?_⟩
  · rw [h0]; exact List.pairwise_lt_range' 1 n
  · rw [h0]; exact List.nodup_range' 1 n
  · rw [h1, List.range'_succ]; rfl

/-- Claim C8: acknowledging the highest outstanding serial acknowledges all
prior outstanding serials (cumulative ack), and acknowledging a serial lower
than every outstanding serial is a no-op surfacing no error. -/
theorem C8_cumulative_and_stale_ack (sm : SurfaceSM) (serial : Nat)
    (hmem : serial ∈ sm.outstanding)
    (hmax : ∀ t ∈ sm.outstanding, t ≤ serial)
    (sm2 : SurfaceSM) (stale : Nat)
    (hne : sm2.outstanding ≠ [])
    (hlow : ∀ t ∈ sm2.outstanding, stale < t) :
    ack_configure sm serial = Except.ok { sm with outstanding := [] }
    ∧ ack_configure sm2 stale = Except.ok sm2 := by
  constructor
  · rcases hout : sm.outstanding with _ | ⟨a, rest⟩
    · rw [hout] at hmem; cases hmem
    · have hmema : a ∈ sm.outstanding := by rw [hout]; exact List.mem_cons_self a rest
      have ha : a ≤ serial := hmax a hmema
      have hcon : sm.outstanding.contains serial = true := by
        exact List.elem_eq_true_of_mem hmem
      have hfil : sm.outstanding.filter (fun t => serial < t) = [] := by
        rw [List.filter_eq_nil_iff]
        intro t ht hlt
        exact absurd (hmax t ht) (Nat.not_le_of_lt (by simpa using hlt))
      unfold ack_configure
      rw [hout]
      simp only [List.head?_cons]
      rw [if_neg (Nat.not_lt_of_le ha), ← hout, if_pos hcon, hfil]
  · rcases hout2 : sm2.outstanding with _ | ⟨b, rest2⟩
    · exact absurd hout2 hne
    · have hb : stale < b := hlow b (by rw [hout2]; exact List.mem_cons_self b rest2)
      unfold ack_configure
      rw [hout2]
      simp only [List.head?_cons]
      rw [if_pos hb]

/-- Witness for C8 at concrete inputs: acknowledging serial 2 on a surface
with outstanding serials 1 and 2 clears both; acknowledging serial 1 on a
surface with outstanding serials 2 and 3 is an error-free no-op. -/
theorem C8_witness :
    ack_configure ⟨2, [1, 2]⟩ 2 = Except.ok ⟨2, []⟩
    ∧ ack_configure ⟨3, [2, 3]⟩ 1 = Except.ok ⟨3, [2, 3]⟩ :=
  C8_cumulative_and_stale_ack ⟨2, [1, 2]⟩ 2 (by decide) (by decide)
    ⟨3, [2, 3]⟩ 1 (by decide) (by decide)

/-- Modelled from the spec: the outbound event enum XdgRequest delivered to
the registered handler (spec section 6); its definition is not part of the
source tree. The spec lists the variants NewClient, NewToplevel, NewPopup,
StateChanged, Reposition and Destroyed. -/
inductive XdgRequest where
  | NewClient
  | NewToplevel
  | NewPopup
  | StateChanged
  | Reposition
  | Destroyed
deriving DecidableEq, Repr

/-- Claim C6: the sidebar lists XdgRequest as the enum of events generated by
xdg shell surfaces, and every outbound event delivered to the handler is one
of its variants. -/
theorem C6_xdgrequest_enum :
    lookupDescr xdgSidebar.enum ("XdgRequest")
      = some ("Events generated by xdg shell surfaces")
    ∧ ∀ r : XdgRequest,
        r ∈ [XdgRequest.NewClient, XdgRequest.NewToplevel, XdgRequest.NewPopup,
             XdgRequest.StateChanged, XdgRequest.Reposition, XdgRequest.Destroyed] := by
  refine ⟨by decide, ?_⟩
  intro r
  cases r <;> simp
